import Mathlib

/-!
Shallow embedding of `src/app/client/api.ts` from ChatGPT-Next-Web-LangChain:
the `getHeaders` header builder, the `ClientApi` facade (constructor dispatch
and the `share` payload/response handling).  State that the TypeScript code
reads from ambient singleton stores (`useAccessStore`, `useChatStore`) is
passed explicitly.
-/

namespace ClientApi

/-- Modelled from the spec: the credential/access store's selected provider
(`accessStore.provider`); `src/app/constant.ts` is not part of the fragment.
Only the `Azure` variant is distinguished by `getHeaders`. -/
inductive ServiceProvider
| OpenAI
| Azure
| Google
| Anthropic
deriving DecidableEq, Repr

/-- Modelled from the spec: the closed set of provider selectors
(`ModelProvider` in `src/app/constant.ts`, not part of the fragment); the
facade constructor matches on `GeminiPro`, `Claude`, with default `GPT`. -/
inductive ModelProvider
| GPT
| GeminiPro
| Claude
deriving DecidableEq, Repr

/-- The concrete provider client bound by the `ClientApi` constructor
(`ChatGPTApi`, `GeminiProApi`, `ClaudeApi` in the source imports). -/
inductive LLMClient
| ChatGPTApi
| GeminiProApi
| ClaudeApi
deriving DecidableEq, Repr

/-- The slice of `useAccessStore.getState()` that `getHeaders` reads.
`enabledAccessControl` stands for the store method of the same name
(its body lives outside the fragment). -/
structure AccessStore where
  provider : ServiceProvider
  openaiApiKey : String
  azureApiKey : String
  googleApiKey : String
  accessCode : String
  enabledAccessControl : Bool
  isUseOpenAIEndpointForAllModels : Bool
deriving DecidableEq, Repr

/-- Modelled from the spec: the fixed prefix prepended to the access code
(`ACCESS_CODE_PREFIX` in `src/app/constant.ts`, not part of the fragment). -/
def ACCESS_CODE_PREFIX : String := "nk-"

/-- JavaScript `String.prototype.trim` as called on the token in
`makeBearer`: strip whitespace from both ends, computed structurally on the
character list so that it evaluates on concrete inputs. -/
def jsTrim (s : String) : String :=
  ⟨((s.data.dropWhile Char.isWhitespace).reverse.dropWhile Char.isWhitespace).reverse⟩

/-- JavaScript `String.prototype.startsWith` as called on the model name. -/
def jsStartsWith (s pat : String) : Bool :=
  pat.data.isPrefixOf s.data

/-- `isGoogle` in `getHeaders`: the session model name starts with `gemini`
and the force-all-models-through-OpenAI override flag is unset. -/
def isGoogleOf (store : AccessStore) (model : String) : Bool :=
  jsStartsWith model "gemini" && !store.isUseOpenAIEndpointForAllModels

/-- `isAzure` in `getHeaders`: the selected provider is the Azure variant. -/
def isAzureOf (store : AccessStore) : Bool :=
  store.provider == ServiceProvider.Azure

/-- The `apiKey` chain in `getHeaders`: Google key when the model resolves to
the Google family, else Azure key when Azure is selected, else OpenAI key. -/
def resolvedApiKey (store : AccessStore) (model : String) : String :=
  if isGoogleOf store model then store.googleApiKey
  else if isAzureOf store then store.azureApiKey
  else store.openaiApiKey

/-- `makeBearer` in `getHeaders`: prepend `Bearer ` to the trimmed token
unless the resolved family is Google or the selected provider is Azure. -/
def makeBearer (isGoogle isAzure : Bool) (s : String) : String :=
  (if isGoogle || isAzure then "" else "Bearer ") ++ jsTrim s

/-- `validString` in `getHeaders`: JavaScript truthiness of a string plus a
length check, i.e. the string is non-empty. -/
def validString (x : String) : Bool :=
  decide (0 < x.length)

/-- The baseline JSON headers object literal in `getHeaders`. -/
def baselineHeaders : List (String × String) :=
  [("Content-Type", "application/json"),
   ("x-requested-with", "XMLHttpRequest"),
   ("Accept", "application/json")]

/-- JavaScript object property assignment `headers[k] = v`: overwrite the
entry when the key is present, otherwise append it. -/
def setHeader (hs : List (String × String)) (k v : String) : List (String × String) :=
  if hs.any (fun p => p.1 == k) then
    hs.map (fun p => if p.1 == k then (k, v) else p)
  else hs ++ [(k, v)]

/-- Property read `headers[k]` on the returned mapping. -/
def getHeader (hs : List (String × String)) (k : String) : Option String :=
  (hs.find? (fun p => p.1 == k)).map (fun p => p.2)

/-- `getHeaders` from `src/app/client/api.ts`, with the ambient store reads
(`useAccessStore`, the current session's `modelConfig.model`) made explicit. -/
def getHeaders (store : AccessStore) (model : String) (ignoreHeaders : Bool) :
    List (String × String) :=
  let isGoogle := isGoogleOf store model
  let isAzure := isAzureOf store
  let headers : List (String × String) :=
    if !ignoreHeaders && !isGoogle then baselineHeaders else []
  let apiKey := resolvedApiKey store model
  if validString apiKey then
    let authHeader := if isGoogle then "x-goog-api-key" else "Authorization"
    let h1 := setHeader headers authHeader (makeBearer isGoogle isAzure apiKey)
    if isAzure then setHeader h1 "api-key" (makeBearer isGoogle isAzure apiKey)
    else h1
  else if store.enabledAccessControl && validString store.accessCode then
    setHeader headers "Authorization"
      (makeBearer isGoogle isAzure (ACCESS_CODE_PREFIX ++ store.accessCode))
  else
    headers

/-- The message roles of `RequestMessage` / `ChatMessage` (`ROLES`). -/
inductive MessageRole
| system
| user
| assistant
deriving DecidableEq, Repr

/-- The slice of a `ChatMessage` that `ClientApi.share` reads. -/
structure ChatMessage where
  role : MessageRole
  content : String
deriving DecidableEq, Repr

/-- One item of the outgoing share payload (`{from, value}`). -/
structure ShareItem where
  «from» : String
  value : String
deriving DecidableEq, Repr

/-- The fixed attribution message `ClientApi.share` appends. -/
def shareAttribution : ShareItem :=
  { «from» := "human",
    value := "Share from [NextChat]: https://github.com/Yidadaa/ChatGPT-Next-Web" }

/-- The `msgs` payload built by `ClientApi.share`: map each message to a
`{from, value}` item (`user` becomes `human`, anything else `gpt`) and
append the attribution item. -/
def shareItems (messages : List ChatMessage) : List ShareItem :=
  (messages.map (fun m =>
    { «from» := if m.role == MessageRole.user then "human" else "gpt",
      value := m.content })) ++ [shareAttribution]

/-- The response handling at the end of `ClientApi.share`: given the `id`
field of the parsed response JSON (absent or a string), return the share URL
when `resJson.id` is truthy, otherwise return `undefined` (here `none`). -/
def shareResult (resJsonId : Option String) : Option String :=
  match resJsonId with
  | some i => if validString i then some ("https://shareg.pt/" ++ i) else none
  | none => none

/-- The provider switch in the `ClientApi` constructor: which concrete
client is bound to `this.llm` for a given selector. -/
def clientApiLlm : ModelProvider → LLMClient
  | ModelProvider.GeminiPro => LLMClient.GeminiProApi
  | ModelProvider.Claude => LLMClient.ClaudeApi
  | _ => LLMClient.ChatGPTApi

/-- The constructor's default parameter value (`provider = ModelProvider.GPT`). -/
def defaultModelProvider : ModelProvider := ModelProvider.GPT

/-- Concrete store: OpenAI selected, no API keys, access control enabled with
a non-empty access code. -/
def storeOpenAIAccess : AccessStore :=
  { provider := ServiceProvider.OpenAI, openaiApiKey := "", azureApiKey := "",
    googleApiKey := "", accessCode := "secret", enabledAccessControl := true,
    isUseOpenAIEndpointForAllModels := false }

/-- Concrete store: OpenAI selected, a personal OpenAI key and an enabled
access code are both present. -/
def storeWithKey : AccessStore :=
  { provider := ServiceProvider.OpenAI, openaiApiKey := "sk-user", azureApiKey := "",
    googleApiKey := "", accessCode := "secret", enabledAccessControl := true,
    isUseOpenAIEndpointForAllModels := false }

/-- Concrete store: OpenAI selected, a personal Google key and an enabled
access code are both present. -/
def storeGoogleKey : AccessStore :=
  { provider := ServiceProvider.OpenAI, openaiApiKey := "", azureApiKey := "",
    googleApiKey := "g-key", accessCode := "secret", enabledAccessControl := true,
    isUseOpenAIEndpointForAllModels := false }

/-- Concrete store: Azure selected and every personal API key non-empty. -/
def storeAzureAllKeys : AccessStore :=
  { provider := ServiceProvider.Azure, openaiApiKey := "k", azureApiKey := "k",
    googleApiKey := "k", accessCode := "", enabledAccessControl := false,
    isUseOpenAIEndpointForAllModels := false }

/-- Concrete store: Azure selected with a personal Azure key and an enabled
access code. -/
def storeAzureKey : AccessStore :=
  { provider := ServiceProvider.Azure, openaiApiKey := "", azureApiKey := "az-key",
    googleApiKey := "", accessCode := "secret", enabledAccessControl := true,
    isUseOpenAIEndpointForAllModels := false }

/-- Concrete store: no keys, access control disabled. -/
def storeEmpty : AccessStore :=
  { provider := ServiceProvider.OpenAI, openaiApiKey := "", azureApiKey := "",
    googleApiKey := "", accessCode := "", enabledAccessControl := false,
    isUseOpenAIEndpointForAllModels := false }

/-- Concrete store: the OpenAI key is a single space (whitespace-only), and an
enabled access code is present. -/
def storeWhitespaceKey : AccessStore :=
  { provider := ServiceProvider.OpenAI, openaiApiKey := " ", azureApiKey := "",
    googleApiKey := "", accessCode := "secret", enabledAccessControl := true,
    isUseOpenAIEndpointForAllModels := false }

/-- Concrete message list: one system message, then one user message. -/
def sampleMsgs : List ChatMessage :=
  [{ role := MessageRole.system, content := "sys" },
   { role := MessageRole.user, content := "hi" }]

/-- C1: whenever the API key resolved for the request's provider family is a
non-empty string, the returned headers carry a credential derived from that
key (under the family's auth header name), and the access code is never used:
the result is unchanged if the access code is erased and access control
disabled. -/
theorem c1_personal_key_shadows_access_code (store : AccessStore) (model : String)
    (ig : Bool) (h : validString (resolvedApiKey store model) = true) :
    getHeader (getHeaders store model ig)
        (if isGoogleOf store model then "x-goog-api-key" else "Authorization")
      = some (makeBearer (isGoogleOf store model) (isAzureOf store)
          (resolvedApiKey store model))
    ∧ getHeaders store model ig
      = getHeaders { store with accessCode := "", enabledAccessControl := false }
          model ig := by
  constructor
  · cases hg : isGoogleOf store model <;> cases ha : isAzureOf store <;> cases ig <;>
      simp [getHeaders, getHeader, setHeader, baselineHeaders, hg, ha, h]
  · have hres : resolvedApiKey
        { store with accessCode := "", enabledAccessControl := false } model
        = resolvedApiKey store model := rfl
    have hg : isGoogleOf
        { store with accessCode := "", enabledAccessControl := false } model
        = isGoogleOf store model := rfl
    have ha : isAzureOf { store with accessCode := "", enabledAccessControl := false }
        = isAzureOf store := rfl
    simp only [getHeaders, hres, hg, ha, h, if_true]

/-- C1 witness: concrete instance with a personal OpenAI key and an enabled
access code. -/
theorem c1_witness :
    validString (resolvedApiKey storeWithKey "gpt-4") = true
    ∧ (getHeader (getHeaders storeWithKey "gpt-4" false)
          (if isGoogleOf storeWithKey "gpt-4" then "x-goog-api-key" else "Authorization")
        = some (makeBearer (isGoogleOf storeWithKey "gpt-4") (isAzureOf storeWithKey)
            (resolvedApiKey storeWithKey "gpt-4"))
      ∧ getHeaders storeWithKey "gpt-4" false
        = getHeaders { storeWithKey with accessCode := "", enabledAccessControl := false }
            "gpt-4" false) :=
  ⟨by decide, c1_personal_key_shadows_access_code storeWithKey "gpt-4" false (by decide)⟩

/-- C2 counterexample: with OpenAI selected throughout (the currently selected
provider fixed), the access-code credential is emitted with the `Bearer `
prefix for a `gpt-4` session but without it for a `gemini-pro` session — the
model-resolved provider family does influence the wrapping, contradicting the
claim that the currently selected provider alone determines it. -/
theorem c2_counterexample :
    getHeader (getHeaders storeOpenAIAccess "gemini-pro" true) "Authorization"
      = some "nk-secret"
    ∧ getHeader (getHeaders storeOpenAIAccess "gpt-4" true) "Authorization"
      = some "Bearer nk-secret" := by decide

/-- C2 (amended): when no personal key resolves and access control is enabled
with a non-empty access code, the emitted credential under `Authorization` is
the fixed prefix concatenated with the access code (trimmed), and the
`Bearer ` prefix is omitted exactly when the model-resolved family is Google
or the currently selected provider is Azure — both inputs influence the
wrapping. -/
theorem c2_access_code_bearer_format (store : AccessStore) (model : String) (ig : Bool)
    (h1 : validString (resolvedApiKey store model) = false)
    (h2 : store.enabledAccessControl = true)
    (h3 : validString store.accessCode = true) :
    getHeader (getHeaders store model ig) "Authorization"
      = some ((if isGoogleOf store model || isAzureOf store then "" else "Bearer ")
          ++ jsTrim (ACCESS_CODE_PREFIX ++ store.accessCode)) := by
  cases hg : isGoogleOf store model <;> cases ha : isAzureOf store <;> cases ig <;>
    simp [getHeaders, getHeader, setHeader, baselineHeaders, makeBearer, hg, ha, h1, h2, h3]

/-- C2 witness: concrete instance on the access-code path with OpenAI
selected and a non-Gemini model. -/
theorem c2_witness :
    validString (resolvedApiKey storeOpenAIAccess "gpt-4") = false
    ∧ storeOpenAIAccess.enabledAccessControl = true
    ∧ validString storeOpenAIAccess.accessCode = true
    ∧ getHeader (getHeaders storeOpenAIAccess "gpt-4" false) "Authorization"
      = some ((if isGoogleOf storeOpenAIAccess "gpt-4" || isAzureOf storeOpenAIAccess
            then "" else "Bearer ")
          ++ jsTrim (ACCESS_CODE_PREFIX ++ storeOpenAIAccess.accessCode)) :=
  ⟨by decide, by decide, by decide,
    c2_access_code_bearer_format storeOpenAIAccess "gpt-4" false
      (by decide) (by decide) (by decide)⟩

/-- C3 counterexample: for a `gemini-pro` session with the override unset, an
empty Google key, and an enabled access code, the emitted credential sits
under `Authorization`, not under `x-goog-api-key` — contradicting the claim
that any emitted credential uses the vendor-specific header name. -/
theorem c3_counterexample :
    getHeader (getHeaders storeOpenAIAccess "gemini-pro" false) "x-goog-api-key" = none
    ∧ getHeader (getHeaders storeOpenAIAccess "gemini-pro" false) "Authorization"
      = some "nk-secret" := by decide

/-- C3 (amended): for a Gemini-prefixed model with the override unset, a
credential coming from the personal (Google) API key is placed under
`x-goog-api-key` with `Authorization` absent; only a credential synthesized
from the access code is placed under `Authorization`, and then
`x-goog-api-key` is absent. -/
theorem c3_gemini_key_header (store : AccessStore) (model : String) (ig : Bool)
    (hgoogle : isGoogleOf store model = true) :
    (validString (resolvedApiKey store model) = true →
      getHeader (getHeaders store model ig) "x-goog-api-key"
        = some (makeBearer true (isAzureOf store) (resolvedApiKey store model))
      ∧ getHeader (getHeaders store model ig) "Authorization" = none)
    ∧ (validString (resolvedApiKey store model) = false →
      getHeader (getHeaders store model ig) "x-goog-api-key" = none
      ∧ (store.enabledAccessControl = true → validString store.accessCode = true →
          getHeader (getHeaders store model ig) "Authorization"
            = some (makeBearer true (isAzureOf store)
                (ACCESS_CODE_PREFIX ++ store.accessCode)))) := by
  constructor
  · intro hv
    cases ha : isAzureOf store <;> cases ig <;>
      simp [getHeaders, getHeader, setHeader, baselineHeaders, hgoogle, ha, hv]
  · intro hv
    constructor
    · cases hac : (store.enabledAccessControl && validString store.accessCode) <;>
        cases ig <;>
          simp [getHeaders, getHeader, setHeader, baselineHeaders, hgoogle, hv, hac]
    · intro hacc hcode
      cases ig <;>
        simp [getHeaders, getHeader, setHeader, baselineHeaders, makeBearer,
          hgoogle, hv, hacc, hcode]

/-- C3 witness: two concrete Gemini-model instances, one with a non-empty
Google key (credential under `x-goog-api-key`), one on the access-code path
(credential under `Authorization`). -/
theorem c3_witness :
    (isGoogleOf storeGoogleKey "gemini-pro" = true
      ∧ validString (resolvedApiKey storeGoogleKey "gemini-pro") = true
      ∧ getHeader (getHeaders storeGoogleKey "gemini-pro" false) "x-goog-api-key"
          = some (makeBearer true (isAzureOf storeGoogleKey)
              (resolvedApiKey storeGoogleKey "gemini-pro"))
      ∧ getHeader (getHeaders storeGoogleKey "gemini-pro" false) "Authorization" = none)
    ∧ (isGoogleOf storeOpenAIAccess "gemini-pro" = true
      ∧ validString (resolvedApiKey storeOpenAIAccess "gemini-pro") = false
      ∧ getHeader (getHeaders storeOpenAIAccess "gemini-pro" false) "x-goog-api-key" = none
      ∧ getHeader (getHeaders storeOpenAIAccess "gemini-pro" false) "Authorization"
          = some (makeBearer true (isAzureOf storeOpenAIAccess)
              (ACCESS_CODE_PREFIX ++ storeOpenAIAccess.accessCode))) :=
  ⟨⟨by decide, by decide,
    (c3_gemini_key_header storeGoogleKey "gemini-pro" false (by decide)).1 (by decide)⟩,
   ⟨by decide, by decide,
    ((c3_gemini_key_header storeOpenAIAccess "gemini-pro" false (by decide)).2
        (by decide)).1,
    ((c3_gemini_key_header storeOpenAIAccess "gemini-pro" false (by decide)).2
        (by decide)).2 (by decide) (by decide)⟩⟩

/-- C4 counterexample: with the ignore-headers flag unset but a `gemini-pro`
session (override unset), the returned mapping lacks `Content-Type` — the
baseline headers are not independent of the resolved provider family. -/
theorem c4_counterexample :
    getHeader (getHeaders storeOpenAIAccess "gemini-pro" false) "Content-Type" = none := by
  decide

/-- C4 (amended): with the ignore-headers flag unset and the session's model
not resolving to the Google family, the returned mapping contains the three
baseline JSON headers; when the model resolves to the Google family they are
omitted. -/
theorem c4_baseline_headers (store : AccessStore) (model : String) :
    (isGoogleOf store model = false →
      getHeader (getHeaders store model false) "Content-Type" = some "application/json"
      ∧ getHeader (getHeaders store model false) "x-requested-with"
        = some "XMLHttpRequest"
      ∧ getHeader (getHeaders store model false) "Accept" = some "application/json")
    ∧ (isGoogleOf store model = true →
      getHeader (getHeaders store model false) "Content-Type" = none
      ∧ getHeader (getHeaders store model false) "x-requested-with" = none
      ∧ getHeader (getHeaders store model false) "Accept" = none) := by
  constructor <;> intro h <;>
    cases hv : validString (resolvedApiKey store model) <;>
      cases ha : isAzureOf store <;>
        cases hac : (store.enabledAccessControl && validString store.accessCode) <;>
          simp [getHeaders, getHeader, setHeader, baselineHeaders, h, hv, ha, hac]

/-- C4 witness: concrete instances with a non-Gemini model (headers present)
and with a Gemini model (headers omitted). -/
theorem c4_witness :
    (isGoogleOf storeEmpty "gpt-4" = false
      ∧ getHeader (getHeaders storeEmpty "gpt-4" false) "Content-Type"
        = some "application/json"
      ∧ getHeader (getHeaders storeEmpty "gpt-4" false) "x-requested-with"
        = some "XMLHttpRequest"
      ∧ getHeader (getHeaders storeEmpty "gpt-4" false) "Accept"
        = some "application/json")
    ∧ (isGoogleOf storeEmpty "gemini-pro" = true
      ∧ getHeader (getHeaders storeEmpty "gemini-pro" false) "Content-Type" = none
      ∧ getHeader (getHeaders storeEmpty "gemini-pro" false) "x-requested-with" = none
      ∧ getHeader (getHeaders storeEmpty "gemini-pro" false) "Accept" = none) :=
  ⟨⟨by decide, (c4_baseline_headers storeEmpty "gpt-4").1 (by decide)⟩,
   ⟨by decide, (c4_baseline_headers storeEmpty "gemini-pro").2 (by decide)⟩⟩

/-- C5 counterexample: Azure is the selected provider and every personal API
key is the non-empty string `k`, yet for a `gemini-pro` session the returned
mapping has no `Authorization` entry (the credential went to
`x-goog-api-key`), contradicting the claim that both `Authorization` and
`api-key` are present. -/
theorem c5_counterexample :
    getHeader (getHeaders storeAzureAllKeys "gemini-pro" true) "Authorization" = none
    ∧ getHeader (getHeaders storeAzureAllKeys "gemini-pro" true) "api-key" = some "k" := by
  decide

/-- C5 (amended): when the selected provider is Azure, the session's model
does not resolve to the Google family, and the Azure API key is non-empty,
the returned mapping contains both `Authorization` and `api-key`, each
holding the identical raw trimmed key with no `Bearer ` prefix. -/
theorem c5_azure_dual_headers (store : AccessStore) (model : String) (ig : Bool)
    (hAz : isAzureOf store = true)
    (hg : isGoogleOf store model = false)
    (hkey : validString store.azureApiKey = true) :
    getHeader (getHeaders store model ig) "Authorization"
      = some (jsTrim store.azureApiKey)
    ∧ getHeader (getHeaders store model ig) "api-key"
      = some (jsTrim store.azureApiKey) := by
  have hres : resolvedApiKey store model = store.azureApiKey := by
    simp [resolvedApiKey, hg, hAz]
  cases ig <;>
    simp [getHeaders, getHeader, setHeader, baselineHeaders, makeBearer,
      hAz, hg, hres, hkey]

/-- C5 witness: concrete instance with Azure selected, a non-Gemini model and
a non-empty Azure key. -/
theorem c5_witness :
    isAzureOf storeAzureKey = true
    ∧ isGoogleOf storeAzureKey "gpt-4" = false
    ∧ validString storeAzureKey.azureApiKey = true
    ∧ (getHeader (getHeaders storeAzureKey "gpt-4" false) "Authorization"
        = some (jsTrim storeAzureKey.azureApiKey)
      ∧ getHeader (getHeaders storeAzureKey "gpt-4" false) "api-key"
        = some (jsTrim storeAzureKey.azureApiKey)) :=
  ⟨by decide, by decide, by decide,
    c5_azure_dual_headers storeAzureKey "gpt-4" false (by decide) (by decide) (by decide)⟩

/-- C6: when the resolved API key is empty and access control is disabled (or
the access code is empty), the returned mapping carries no authorization
entry of any kind; `getHeaders` is total, so the call returns normally. -/
theorem c6_no_auth_header (store : AccessStore) (model : String) (ig : Bool)
    (h1 : validString (resolvedApiKey store model) = false)
    (h2 : store.enabledAccessControl = false ∨ validString store.accessCode = false) :
    getHeader (getHeaders store model ig) "Authorization" = none
    ∧ getHeader (getHeaders store model ig) "x-goog-api-key" = none
    ∧ getHeader (getHeaders store model ig) "api-key" = none := by
  have hac : (store.enabledAccessControl && validString store.accessCode) = false := by
    rcases h2 with h2 | h2 <;> simp [h2]
  cases hb : (!ig && !isGoogleOf store model) <;>
    simp [getHeaders, getHeader, setHeader, baselineHeaders, h1, hac, hb]

/-- C6 witness: concrete instance with no key and access control disabled. -/
theorem c6_witness :
    validString (resolvedApiKey storeEmpty "gpt-4") = false
    ∧ (storeEmpty.enabledAccessControl = false
        ∨ validString storeEmpty.accessCode = false)
    ∧ (getHeader (getHeaders storeEmpty "gpt-4" false) "Authorization" = none
      ∧ getHeader (getHeaders storeEmpty "gpt-4" false) "x-goog-api-key" = none
      ∧ getHeader (getHeaders storeEmpty "gpt-4" false) "api-key" = none) :=
  ⟨by decide, Or.inl (by decide),
    c6_no_auth_header storeEmpty "gpt-4" false (by decide) (Or.inl (by decide))⟩

/-- C7: when the share endpoint's parsed response carries a truthy (non-empty)
`id`, `share` resolves to `https://shareg.pt/` followed by that id; when the
response lacks an `id`, it resolves to `undefined` (`none`) — the handling is
a total function, so no exception is thrown. -/
theorem c7_share_result (i : String) :
    (validString i = true → shareResult (some i) = some ("https://shareg.pt/" ++ i))
    ∧ shareResult none = none := by
  constructor
  · intro h
    simp [shareResult, h]
  · rfl

/-- C7 witness: the concrete id `abc123` and the id-less response. -/
theorem c7_witness :
    shareResult (some "abc123") = some "https://shareg.pt/abc123"
    ∧ shareResult none = none :=
  ⟨(c7_share_result "abc123").1 (by decide), (c7_share_result "abc123").2⟩

/-- C8: the facade constructor binds the GeminiPro client for the GeminiPro
selector, the Claude client for the Claude selector, and the baseline OpenAI
client for every other selector value, including the default selector used
when none is supplied. -/
theorem c8_client_dispatch :
    clientApiLlm ModelProvider.GeminiPro = LLMClient.GeminiProApi
    ∧ clientApiLlm ModelProvider.Claude = LLMClient.ClaudeApi
    ∧ clientApiLlm defaultModelProvider = LLMClient.ChatGPTApi
    ∧ ∀ p : ModelProvider, p ≠ ModelProvider.GeminiPro → p ≠ ModelProvider.Claude →
        clientApiLlm p = LLMClient.ChatGPTApi := by
  refine ⟨rfl, rfl, rfl, ?_⟩
  intro p h1 h2
  cases p
  · rfl
  · exact absurd rfl h1
  · exact absurd rfl h2

/-- C8 witness: the GPT selector is neither GeminiPro nor Claude and maps to
the baseline client. -/
theorem c8_witness :
    ModelProvider.GPT ≠ ModelProvider.GeminiPro
    ∧ clientApiLlm ModelProvider.GPT = LLMClient.ChatGPTApi :=
  ⟨by decide, c8_client_dispatch.2.2.2 ModelProvider.GPT (by decide) (by decide)⟩

/-- C9: the share payload has one more item than the input, position `i` of
the payload renders message `i` (role `user` becomes `human`, any other role
including `system` becomes `gpt`, the content is preserved), and the final
appended item is the fixed attribution message with `from` equal to
`human`. -/
theorem c9_share_payload (msgs : List ChatMessage) (i : Nat) (h : i < msgs.length) :
    (shareItems msgs).length = msgs.length + 1
    ∧ (shareItems msgs)[i]?
        = (msgs[i]?).map (fun m =>
            { «from» := if m.role == MessageRole.user then "human" else "gpt",
              value := m.content })
    ∧ (∀ m : ChatMessage, msgs[i]? = some m → m.role ≠ MessageRole.user →
        (shareItems msgs)[i]? = some { «from» := "gpt", value := m.content })
    ∧ (shareItems msgs)[msgs.length]? = some shareAttribution := by
  have hmap : (shareItems msgs)[i]?
      = (msgs[i]?).map (fun m =>
          ({ «from» := if m.role == MessageRole.user then "human" else "gpt",
             value := m.content } : ShareItem)) := by
    rw [shareItems, List.getElem?_append_left (by simpa using h), List.getElem?_map]
  refine ⟨by simp [shareItems], hmap, ?_, ?_⟩
  · intro m hm hrole
    rw [hmap, hm]
    simp [hrole]
  · rw [shareItems, List.getElem?_append_right (by simp)]
    simp

/-- C9 witness: a two-message list whose first message has role `system`. -/
theorem c9_witness :
    (0 : Nat) < sampleMsgs.length
    ∧ ((shareItems sampleMsgs).length = sampleMsgs.length + 1
      ∧ (shareItems sampleMsgs)[0]?
          = (sampleMsgs[0]?).map (fun m =>
              { «from» := if m.role == MessageRole.user then "human" else "gpt",
                value := m.content })
      ∧ (∀ m : ChatMessage, sampleMsgs[0]? = some m → m.role ≠ MessageRole.user →
          (shareItems sampleMsgs)[0]? = some { «from» := "gpt", value := m.content })
      ∧ (shareItems sampleMsgs)[sampleMsgs.length]? = some shareAttribution) :=
  ⟨by decide, c9_share_payload sampleMsgs 0 (by decide)⟩

/-- C10: a whitespace-only (hence non-empty) resolved API key still shadows
the access code — the access-code branch is not taken, so the result ignores
the access-code state — and on the generic bearer path (neither Google-family
nor Azure) the emitted `Authorization` value is exactly `Bearer ` followed by
the trimmed, hence empty, token. -/
theorem c10_whitespace_key (store : AccessStore) (model : String) (ig : Bool)
    (h1 : validString (resolvedApiKey store model) = true)
    (h2 : jsTrim (resolvedApiKey store model) = "") :
    getHeaders store model ig
      = getHeaders { store with accessCode := "", enabledAccessControl := false }
          model ig
    ∧ (isGoogleOf store model = false → isAzureOf store = false →
        getHeader (getHeaders store model ig) "Authorization" = some "Bearer ") := by
  constructor
  · have hres : resolvedApiKey
        { store with accessCode := "", enabledAccessControl := false } model
        = resolvedApiKey store model := rfl
    have hg : isGoogleOf
        { store with accessCode := "", enabledAccessControl := false } model
        = isGoogleOf store model := rfl
    have ha : isAzureOf { store with accessCode := "", enabledAccessControl := false }
        = isAzureOf store := rfl
    simp only [getHeaders, hres, hg, ha, h1, if_true]
  · intro hg ha
    cases ig <;>
      simp [getHeaders, getHeader, setHeader, baselineHeaders, makeBearer,
        h1, h2, hg, ha]

/-- C10 witness: the OpenAI key is a single space, OpenAI is selected, and an
enabled access code is present. -/
theorem c10_witness :
    validString (resolvedApiKey storeWhitespaceKey "gpt-4") = true
    ∧ jsTrim (resolvedApiKey storeWhitespaceKey "gpt-4") = ""
    ∧ (getHeaders storeWhitespaceKey "gpt-4" false
        = getHeaders
            { storeWhitespaceKey with accessCode := "", enabledAccessControl := false }
            "gpt-4" false
      ∧ (isGoogleOf storeWhitespaceKey "gpt-4" = false →
          isAzureOf storeWhitespaceKey = false →
          getHeader (getHeaders storeWhitespaceKey "gpt-4" false) "Authorization"
            = some "Bearer ")) :=
  ⟨by decide, by decide,
    c10_whitespace_key storeWhitespaceKey "gpt-4" false (by decide) (by decide)⟩

end ClientApi
